import Mathlib

/-!
Shallow embedding of the core of the `chatbot_sql_final` repository:
the RBAC validator (`src/utils/rbac.py`), the conversation history store
(`src/utils/history.py`), the router agent (`agents/router_agent.py`) and
the workflow engine (`src/core/workflow.py`).

Strings are modelled with Lean `String`; the Python code only manipulates
ASCII text in the fragments embedded here, so Python's `.upper()`,
`.lower()` and `.strip()` are modelled characterwise over the ASCII range.
The message literals of the source contain apostrophes; they are written
here with the code-point-39 character `apos` so the strings are byte-for-byte
the ones the Python files contain.
-/

namespace ChatbotSql

/-- The apostrophe character (code point 39), used to build the exact
message strings the Python source contains. -/
def apos : String := String.singleton (Char.ofNat 39)

/-- Python's `str.lower()` (ASCII fragment), computed characterwise so
that it reduces inside the kernel. -/
def strToLower (s : String) : String := String.mk (s.toList.map Char.toLower)

/-- Python's `str.upper()` (ASCII fragment). -/
def strToUpper (s : String) : String := String.mk (s.toList.map Char.toUpper)

/-- Character class of the regex `\s`, which is also the set of
characters Python's `str.strip()` removes (ASCII fragment). -/
def isSpaceChar (c : Char) : Bool :=
  c = ' ' || c = Char.ofNat 9 || c = Char.ofNat 10 || c = Char.ofNat 13
    || c = Char.ofNat 11 || c = Char.ofNat 12

/-- Python's `str.strip()` with no argument: remove leading and trailing
whitespace. -/
def strStrip (s : String) : String :=
  String.mk (((s.toList.dropWhile isSpaceChar).reverse.dropWhile isSpaceChar).reverse)

/-- Python's `str.startswith(pre)`. -/
def strStartsWith (s pre : String) : Bool :=
  pre.toList.isPrefixOf s.toList

/-- `listContainsSub needle hay` is Python's substring test
`needle in hay`, over explicit character lists. -/
def listContainsSub (needle : List Char) : List Char → Bool
  | [] => needle.isEmpty
  | c :: cs => needle.isPrefixOf (c :: cs) || listContainsSub needle cs

/-- Python's `needle in hay` on strings. -/
def strContains (hay needle : String) : Bool :=
  listContainsSub needle.toList hay.toList

/-- The `Role` enumeration of `rbac.py`. -/
inductive Role where
  | viewer
  | readonly
  | analyst
  | admin
deriving DecidableEq, Repr

/-- Python's `Role(role.lower())`, returning `none` where the constructor
raises `ValueError` (role string outside the closed enumeration,
compared after lower-casing). -/
def parseRole (role : String) : Option Role :=
  let s := strToLower role
  if s = "viewer" then some Role.viewer
  else if s = "readonly" then some Role.readonly
  else if s = "analyst" then some Role.analyst
  else if s = "admin" then some Role.admin
  else none

/-- `RBACManager.role_permissions` (permission value strings per role). -/
def rolePermissions : Role → List String
  | Role.viewer => ["read"]
  | Role.readonly => ["read"]
  | Role.analyst => ["read"]
  | Role.admin => ["read", "write", "delete", "admin"]

/-- `RBACManager.table_permissions`; the empty list for `admin` means
"all tables", exactly as the empty set does in the source. -/
def tablePermissions : Role → List String
  | Role.viewer => ["users", "orders"]
  | Role.readonly => ["users", "orders", "products", "categories"]
  | Role.analyst => ["users", "orders", "products", "categories", "sales", "analytics"]
  | Role.admin => []

/-- `RBACManager.column_restrictions`: per role, a table-to-allowed-columns
map (association list). Roles other than `viewer` have no restrictions. -/
def columnRestrictions : Role → List (String × List String)
  | Role.viewer => [("users", ["id", "name", "email"]), ("orders", ["id", "amount", "date"])]
  | Role.readonly => []
  | Role.analyst => []
  | Role.admin => []

/-- `RBACManager.can_access_table`. -/
def can_access_table (role tableName : String) : Bool :=
  match parseRole role with
  | none => false
  | some r =>
    if r = Role.admin then true
    else (tablePermissions r).contains (strToLower tableName)

/-- `RBACManager.can_access_column`. -/
def can_access_column (role tableName columnName : String) : Bool :=
  match parseRole role with
  | none => false
  | some r =>
    let restrictions := columnRestrictions r
    if restrictions.isEmpty then true
    else
      let tableRestrictions := ((restrictions.lookup (strToLower tableName)).getD [])
      if tableRestrictions.isEmpty then true
      else tableRestrictions.contains (strToLower columnName)

/-- The fixed keyword denylist of `RBACManager._is_safe_query`. -/
def dangerousKeywords : List String :=
  ["DROP", "DELETE", "INSERT", "UPDATE", "ALTER", "CREATE",
   "TRUNCATE", "EXEC", "EXECUTE", "UNION", "INFORMATION_SCHEMA"]

/-- The text the denylist scan of `_is_safe_query` runs over:
`sql.upper().strip()`. -/
def sqlUpperOf (sql : String) : String := strStrip (strToUpper sql)

/-- Whether `sql.upper().strip()` contains some denylisted keyword as a
substring (the scan of `_is_safe_query`; the strip cannot affect the
outcome since no keyword contains whitespace, so this is exactly
"the statement text contains a denylisted keyword, case-insensitively"). -/
def hasDangerousKeyword (sql : String) : Bool :=
  dangerousKeywords.any (fun kw => strContains (sqlUpperOf sql) kw)

/-- `RBACManager._is_safe_query`. -/
def is_safe_query (sql : String) (role : Role) : Bool :=
  if role ≠ Role.admin ∧ ¬ strStartsWith (sqlUpperOf sql) "SELECT" then false
  else if role ≠ Role.admin ∧ hasDangerousKeyword sql then false
  else true

/-- Character class of the regex `\w` (ASCII fragment). -/
def isWordChar (c : Char) : Bool :=
  c.isAlpha || c.isDigit || c = Char.ofNat 95

/-- Case-insensitive literal match: drop `kw` from the front of `l`
if it matches ignoring case. -/
def dropPrefixCI : List Char → List Char → Option (List Char)
  | [], l => some l
  | _ :: _, [] => none
  | k :: ks, c :: cs => if k.toLower = c.toLower then dropPrefixCI ks cs else none

/-- One attempt of the regex `KW\s+(\w+)` (with `re.IGNORECASE`) anchored
at the current position: the keyword, at least one whitespace character,
then the captured maximal run of word characters. -/
def tryMatchAt (kw l : List Char) : Option (List Char × List Char) :=
  match dropPrefixCI kw l with
  | none => none
  | some r1 =>
    let ws := r1.takeWhile isSpaceChar
    if ws.isEmpty then none
    else
      let r2 := r1.dropWhile isSpaceChar
      let word := r2.takeWhile isWordChar
      if word.isEmpty then none else some (word, r2.dropWhile isWordChar)

/-- `re.findall(KW + "\\s+(\\w+)", text, re.IGNORECASE)`: left-to-right,
non-overlapping matches; on failure at a position the scan advances one
character. `fuel` bounds the recursion and is instantiated with the text
length, which always suffices because each step consumes at least one
character. -/
def scanCaptures (kw : List Char) : Nat → List Char → List (List Char)
  | 0, _ => []
  | _ + 1, [] => []
  | fuel + 1, c :: cs =>
    match tryMatchAt kw (c :: cs) with
    | some (word, rest) => word :: scanCaptures kw fuel rest
    | none => scanCaptures kw fuel cs

/-- `RBACManager._extract_tables_from_sql`: captures of `FROM\s+(\w+)`
followed by captures of `JOIN\s+(\w+)`, each lower-cased. -/
def extract_tables_from_sql (sql : String) : List String :=
  let chars := sql.toList
  let fromTables := scanCaptures "FROM".toList chars.length chars
  let joinTables := scanCaptures "JOIN".toList chars.length chars
  (fromTables ++ joinTables).map (fun t => strToLower (String.mk t))

/-- `RBACManager.validate_query_access`: returns `(is_allowed, reason)`.
The `for table in tables` loop returning at the first inaccessible table
is rendered with `List.find?`. -/
def validate_query_access (role sqlQuery : String) : Bool × String :=
  match parseRole role with
  | none => (false, "Invalid role: " ++ role)
  | some r =>
    match (extract_tables_from_sql sqlQuery).find? (fun t => ! can_access_table role t) with
    | some t =>
      (false, "Access denied to table " ++ apos ++ t ++ apos ++ " for role " ++ apos ++ role ++ apos)
    | none =>
      if ¬ is_safe_query sqlQuery r then (false, "Query contains unauthorized operations")
      else (true, "Access granted")

/-- The value of `RBACManager.get_role_info`'s `allowed_tables` field:
the list of tables, or the string `"all"` when the stored set is empty. -/
inductive TablesInfo where
  | all
  | tables (ts : List String)
deriving DecidableEq, Repr

/-- The dictionary returned by `RBACManager.get_role_info` on success. -/
structure RoleInfo where
  role : String
  permissions : List String
  allowedTables : TablesInfo
  columnRestrictions : List (String × List String)
deriving DecidableEq, Repr

/-- `RBACManager.get_role_info`: `none` where the Python code returns `None`. -/
def get_role_info (role : String) : Option RoleInfo :=
  match parseRole role with
  | none => none
  | some r =>
    some { role := match r with
            | Role.viewer => "viewer"
            | Role.readonly => "readonly"
            | Role.analyst => "analyst"
            | Role.admin => "admin"
         , permissions := rolePermissions r
         , allowedTables :=
            if (tablePermissions r).isEmpty then TablesInfo.all
            else TablesInfo.tables (tablePermissions r)
         , columnRestrictions := columnRestrictions r }

/-- A stored history element of `history.py`: either the `model_dump()` of a
`ConversationTurn` appended by `add_turn`, or the summary dictionary built by
`_create_conversation_summary` (recognisable by its `data.type = "summary"`
payload). Fields that no claim touches (timestamps, the synthesized summary
texts and topic lists, whose ordering Python derives from set iteration) are
abstracted; `origCount` is the `original_count` metadata. -/
inductive HistEntry where
  | turn (userQuery assistantResponse : String) (data : Option String)
  | summary (origCount : Nat)
deriving DecidableEq, Repr

/-- Whether an entry is the Summary Entry produced by consolidation. -/
def isSummary : HistEntry → Bool
  | HistEntry.summary _ => true
  | _ => false

/-- `HistoryManager._create_conversation_summary`: one summary entry
recording how many conversations it consolidates. -/
def create_conversation_summary (old : List HistEntry) : HistEntry :=
  HistEntry.summary old.length

/-- `HistoryManager._summarize_history`, as a function of the stored list:
a no-op below 100 entries, otherwise the first 80 entries are replaced by
one summary entry. -/
def summarize_history (h : List HistEntry) : List HistEntry :=
  if h.length < 100 then h
  else create_conversation_summary (h.take 80) :: h.drop 80

/-- The effect of `HistoryManager.add_turn` on one user's stored list:
append the new turn, then consolidate when the length reaches 100. -/
def add_turn_list (h : List HistEntry) (q r : String) (d : Option String) : List HistEntry :=
  let h1 := h ++ [HistEntry.turn q r d]
  if 100 ≤ h1.length then summarize_history h1 else h1

/-- The `HistoryManager.conversations` dictionary: user id to stored list
(`none` models an absent key). -/
def Conversations : Type := String → Option (List HistEntry)

/-- The initial empty dictionary. -/
def emptyConversations : Conversations := fun _ => none

/-- `HistoryManager.add_turn` on the whole dictionary (the source creates
the user's list lazily, appends, then consolidates at 100). -/
def add_turn (c : Conversations) (userId q r : String) (d : Option String) : Conversations :=
  let h2 := add_turn_list ((c userId).getD []) q r d
  fun u => if u = userId then some h2 else c u

/-- `HistoryManager.get_history`: `self.conversations.get(user_id, [])`. -/
def get_history (c : Conversations) (userId : String) : List HistEntry :=
  (c userId).getD []

/-- Python's `history[-limit:]` for a natural `limit`: the whole list when
`limit = 0` (since `history[-0:]` is `history[0:]`), otherwise the last
`limit` entries. -/
def pySliceLast (h : List HistEntry) (limit : Nat) : List HistEntry :=
  if limit = 0 then h else h.drop (h.length - limit)

/-- `HistoryManager.get_recent_history`:
`history[-limit:] if history else []`. -/
def get_recent_history (c : Conversations) (userId : String) (limit : Nat) : List HistEntry :=
  let h := (c userId).getD []
  if h.isEmpty then [] else pySliceLast h limit

/-- Spec-side comparator for the `recent`/`all` round-trip claim: the tail
of `h` truncated to `limit` entries, written as the reversal of the first
`limit` entries of the reversed list. -/
def specRecentTail (h : List HistEntry) (limit : Nat) : List HistEntry :=
  (h.reverse.take limit).reverse

/-- A sequence of `add_turn` calls for one user, starting from the empty
store; each element carries the call's `(user_query, assistant_response,
data)` arguments. -/
def run_add_turns (userId : String) (ts : List (String × String × Option String)) :
    Conversations :=
  ts.foldl (fun c t => add_turn c userId t.1 t.2.1 t.2.2) emptyConversations

/-- Inductive invariant of one user's stored list after `n` `add_turn`
calls from the empty store: length at most 99, no summary entry outside
the head position, no summary at all during the first 99 calls, and
exactly one summary sitting at the head from the 100th call on. -/
def histInv (n : Nat) (h : List HistEntry) : Prop :=
  h.length ≤ 99 ∧ h.tail.countP isSummary = 0 ∧
  (n < 100 → h.countP isSummary = 0 ∧ h.length = n) ∧
  (100 ≤ n → h.countP isSummary = 1 ∧ h.head?.map isSummary = some true)

/-- A dictionary update an agent may return in its `Command`
(`state_dict.update(command.update)` in `workflow.py`): an outer `none`
means the key is absent from the update. -/
structure StateUpdate where
  sql_query : Option (Option String)
  db_results : Option (Option String)
  chart_spec : Option (Option String)
  response_message : Option (Option String)
  needs_visualization : Option Bool
deriving DecidableEq, Repr

/-- The `ChatState` model of `models.py`, restricted to the fields the
workflow engine reads or writes. The caller-supplied context dictionary is
represented by the truthiness of its `needs_visualization` entry, the only
part of it the engine consults (`state.context.get("needs_visualization",
False)`); result payloads are opaque strings. -/
structure ChatState where
  user_id : String
  role : String
  query : String
  contextNeedsVisualization : Bool
  sql_query : Option String
  db_results : Option String
  chart_spec : Option String
  response_message : Option String
  next_agent : Option String
  is_complete : Bool
deriving DecidableEq, Repr

/-- The `Command` model of `models.py`: destination node plus an optional
state update (`none` models both `None` and the falsy empty dictionary). -/
structure Command where
  goto : String
  update : Option StateUpdate
deriving DecidableEq, Repr

/-- `state_dict.update(command.update)` followed by rebuilding `ChatState`. -/
def applyUpdate (s : ChatState) (u : StateUpdate) : ChatState :=
  { s with
    sql_query := u.sql_query.getD s.sql_query
    db_results := u.db_results.getD s.db_results
    chart_spec := u.chart_spec.getD s.chart_spec
    response_message := u.response_message.getD s.response_message
    contextNeedsVisualization := u.needs_visualization.getD s.contextNeedsVisualization }

/-- `if command.update: ... state = ChatState(**state_dict)`. -/
def applyUpdateOpt (s : ChatState) (u : Option StateUpdate) : ChatState :=
  match u with
  | none => s
  | some upd => applyUpdate s upd

/-- An agent as the workflow sees it: a delegated call that either returns
a `Command` or raises (modelled by `Except.error ()`); the node wrappers of
`workflow.py` are the try/except blocks around these calls. -/
def AgentFn : Type := ChatState → Except Unit Command

/-- The fallback message of `_chitchat_node`'s except branch. -/
def chitchatFallbackMessage : String :=
  "Hello! I" ++ apos ++ "m here to help. How can I assist you today?"

/-- The fallback message of `_db_agent_1_node`'s except branch. -/
def dbAgent1ErrorMessage : String := "I encountered an error processing your request."

/-- The fallback message of `_db_agent_2_node`'s except branch. -/
def dbAgent2ErrorMessage : String := "I encountered an error processing your complex request."

/-- The fallback message of `_visualizer_node`'s except branch. -/
def visualizerErrorMessage : String :=
  "I couldn" ++ apos ++ "t create a visualization. Let me provide the data in a different format."

/-- The generic denial message of `_unauthorized_node`'s except branch. -/
def unauthorizedErrorMessage : String :=
  "I don" ++ apos ++ "t have permission to access that information."

/-- The fallback message of `_summarizer_node`'s except branch. -/
def summarizerErrorMessage : String :=
  "I apologize, but I encountered an error. Please try again."

/-- The fallback used when the final state has no (or an empty) response
message in `process_query`. -/
def processFallbackMessage : String :=
  "I" ++ apos ++ "m sorry, I couldn" ++ apos ++ "t process your request."

/-- The message of `process_query`'s outer except branch. -/
def processErrorMessage : String :=
  "I apologize, but I encountered an error processing your request. Please try again."

/-- `ChatbotWorkflow._router_node`: on success apply the update and set
`next_agent` to the command's goto; on an unexpected failure fall back to
`next_agent = "chitchat"`. -/
def router_node (agent : AgentFn) (s : ChatState) : ChatState :=
  match agent s with
  | Except.ok cmd =>
    let s1 := applyUpdateOpt s cmd.update
    { s1 with next_agent := some cmd.goto }
  | Except.error _ => { s with next_agent := some "chitchat" }

/-- `ChatbotWorkflow._chitchat_node`. -/
def chitchat_node (agent : AgentFn) (s : ChatState) : ChatState :=
  match agent s with
  | Except.ok cmd =>
    let s1 := applyUpdateOpt s cmd.update
    { s1 with is_complete := true, next_agent := none }
  | Except.error _ =>
    { s with is_complete := true, response_message := some chitchatFallbackMessage }

/-- `ChatbotWorkflow._db_agent_1_node`. -/
def db_agent_1_node (agent : AgentFn) (s : ChatState) : ChatState :=
  match agent s with
  | Except.ok cmd =>
    let s1 := applyUpdateOpt s cmd.update
    { s1 with next_agent := some cmd.goto }
  | Except.error _ =>
    { s with next_agent := some "summarizer", response_message := some dbAgent1ErrorMessage }

/-- `ChatbotWorkflow._db_agent_2_node`. -/
def db_agent_2_node (agent : AgentFn) (s : ChatState) : ChatState :=
  match agent s with
  | Except.ok cmd =>
    let s1 := applyUpdateOpt s cmd.update
    { s1 with next_agent := some cmd.goto }
  | Except.error _ =>
    { s with next_agent := some "summarizer", response_message := some dbAgent2ErrorMessage }

/-- `ChatbotWorkflow._visualizer_node`. -/
def visualizer_node (agent : AgentFn) (s : ChatState) : ChatState :=
  match agent s with
  | Except.ok cmd =>
    let s1 := applyUpdateOpt s cmd.update
    { s1 with next_agent := some cmd.goto }
  | Except.error _ =>
    { s with next_agent := some "summarizer", response_message := some visualizerErrorMessage }

/-- `ChatbotWorkflow._unauthorized_node`. -/
def unauthorized_node (agent : AgentFn) (s : ChatState) : ChatState :=
  match agent s with
  | Except.ok cmd =>
    let s1 := applyUpdateOpt s cmd.update
    { s1 with is_complete := true, next_agent := none }
  | Except.error _ =>
    { s with is_complete := true, response_message := some unauthorizedErrorMessage }

/-- `ChatbotWorkflow._summarizer_node`. -/
def summarizer_node (agent : AgentFn) (s : ChatState) : ChatState :=
  match agent s with
  | Except.ok cmd =>
    let s1 := applyUpdateOpt s cmd.update
    { s1 with is_complete := true, next_agent := none }
  | Except.error _ =>
    { s with is_complete := true, response_message := some summarizerErrorMessage }

/-- Python's `x or default` on an optional string, where both `None` and
the empty string are falsy. -/
def pyOrStr (o : Option String) (d : String) : String :=
  match o with
  | none => d
  | some s => if s = "" then d else s

/-- `ChatbotWorkflow._route_after_router`: `state.next_agent or "chitchat"`. -/
def route_after_router (s : ChatState) : String := pyOrStr s.next_agent "chitchat"

/-- The visualization keyword list of `_route_after_db`. -/
def visualizationKeywords : List String :=
  ["chart", "graph", "plot", "visualize", "show me a", "display",
   "bar chart", "pie chart", "line chart", "scatter plot",
   "create a chart", "generate a graph", "draw a plot"]

/-- `ChatbotWorkflow._route_after_db`: visualizer when the context flag is
set or the query text contains a visualization keyword, else summarizer. -/
def route_after_db (s : ChatState) : String :=
  if s.contextNeedsVisualization then "visualizer"
  else if visualizationKeywords.any (fun kw => strContains (strToLower s.query) kw) then
    "visualizer"
  else "summarizer"

/-- The seven delegated agent behaviours behind the workflow's nodes. -/
structure Agents where
  router : AgentFn
  chitchat : AgentFn
  dbAgent1 : AgentFn
  dbAgent2 : AgentFn
  visualizer : AgentFn
  summarizer : AgentFn
  unauthorized : AgentFn

/-- The graph edges after a database agent: the conditional edge
`_route_after_db` into the visualizer (which has a fixed edge into the
summarizer) or directly into the summarizer. -/
def runAfterDb (ag : Agents) (s2 : ChatState) : ChatState :=
  if route_after_db s2 = "visualizer" then
    summarizer_node ag.summarizer (visualizer_node ag.visualizer s2)
  else summarizer_node ag.summarizer s2

/-- One invocation of the compiled graph: START to router, the conditional
edges of `_build_graph`, and the fixed edges to END. A `next_agent` value
outside the router's path map `{chitchat, db_agent_1, db_agent_2,
unauthorized}` makes the graph invocation raise (`Except.error`), which
`process_query`'s outer except absorbs. -/
def run_workflow (ag : Agents) (s0 : ChatState) : Except Unit ChatState :=
  let s1 := router_node ag.router s0
  if route_after_router s1 = "chitchat" then Except.ok (chitchat_node ag.chitchat s1)
  else if route_after_router s1 = "db_agent_1" then
    Except.ok (runAfterDb ag (db_agent_1_node ag.dbAgent1 s1))
  else if route_after_router s1 = "db_agent_2" then
    Except.ok (runAfterDb ag (db_agent_2_node ag.dbAgent2 s1))
  else if route_after_router s1 = "unauthorized" then
    Except.ok (unauthorized_node ag.unauthorized s1)
  else Except.error ()

/-- The dictionary `ChatbotWorkflow.process_query` returns (the history
snapshot it also carries is owned by the history store and orthogonal to
the engine claims). -/
structure ProcessResponse where
  message : String
  table : Option String
  chart : Option String
deriving DecidableEq, Repr

/-- The initial `ChatState` built at the top of `process_query`. -/
def initialState (userId role query : String) (ctxNeedsViz : Bool) : ChatState :=
  { user_id := userId, role := role, query := query,
    contextNeedsVisualization := ctxNeedsViz,
    sql_query := none, db_results := none, chart_spec := none,
    response_message := none, next_agent := none, is_complete := false }

/-- `ChatbotWorkflow.process_query`: run the graph and package the final
state; any propagated failure degrades to the generic error message. -/
def process_query (ag : Agents) (userId role query : String) (ctxNeedsViz : Bool) :
    ProcessResponse :=
  match run_workflow ag (initialState userId role query ctxNeedsViz) with
  | Except.ok fs =>
    { message := pyOrStr fs.response_message processFallbackMessage,
      table := fs.db_results, chart := fs.chart_spec }
  | Except.error _ =>
    { message := processErrorMessage, table := none, chart := none }

/-- The `routing_map` dictionary of `RouterAgent.classify_intent`. -/
def routing_map : List (String × String) :=
  [("chitchat", "chitchat"), ("db1", "db_agent_1"), ("db2", "db_agent_2"),
   ("visualize", "db_agent_2"), ("unauthorized", "unauthorized")]

/-- The update `classify_intent` attaches for a visualization intent:
`update["needs_visualization"] = True`. -/
def vizUpdate : StateUpdate :=
  { sql_query := none, db_results := none, chart_spec := none,
    response_message := none, needs_visualization := some true }

/-- The pure tail of `RouterAgent.classify_intent`: normalise the
classifier collaborator's raw label (`content.strip().lower()`), map it
through `routing_map` with default `"chitchat"`, and attach the
`needs_visualization` update exactly for the `"visualize"` label. -/
def classify_intent_route (rawLabel : String) : Command :=
  let intent := strToLower (strStrip rawLabel)
  { goto := (routing_map.lookup intent).getD "chitchat"
    update := if intent = "visualize" then some vizUpdate else none }

/-- The delegated agent call that always raises, used as a concrete
failing collaborator in witnesses and counterexamples. -/
def errorAgent : AgentFn := fun _ => Except.error ()

/-- A collaborator family in which every delegated call raises. -/
def allErrorAgents : Agents :=
  { router := errorAgent, chitchat := errorAgent, dbAgent1 := errorAgent,
    dbAgent2 := errorAgent, visualizer := errorAgent, summarizer := errorAgent,
    unauthorized := errorAgent }

/-- A concrete initial state for witnesses and counterexamples. -/
def exampleInitialState : ChatState := initialState "u" "viewer" "hello" false

/-- A concrete history store holding one ordinary turn for user `"u"`. -/
def exampleConversations : Conversations :=
  fun u => if u = "u" then some [HistEntry.turn "a" "b" none] else none

theorem countP_drop80_le_tail (h1 : List HistEntry) :
    (h1.drop 80).countP isSummary ≤ h1.tail.countP isSummary := by
  have heq : h1.drop 80 = (h1.drop 1).drop 79 := by
    rw [List.drop_drop]
  rw [heq, List.drop_one]
  exact List.Sublist.countP_le _ (List.drop_sublist _ _)

theorem histInv_zero : histInv 0 [] := by
  refine ⟨by simp, by simp, fun _ => ⟨by simp, rfl⟩, fun hc => absurd hc (by omega)⟩

theorem histInv_step (n : Nat) (h : List HistEntry) (q r : String) (d : Option String)
    (inv : histInv n h) : histInv (n + 1) (add_turn_list h q r d) := by
  obtain ⟨hlen, htail, hlt, hge⟩ := inv
  have hturn : isSummary (HistEntry.turn q r d) = false := rfl
  have hcount1 : (h ++ [HistEntry.turn q r d]).countP isSummary = h.countP isSummary := by
    simp [List.countP_append, List.countP_cons, hturn]
  have htail1 : (h ++ [HistEntry.turn q r d]).tail.countP isSummary
      = h.tail.countP isSummary := by
    cases h with
    | nil => simp [List.countP_cons, hturn]
    | cons a as =>
      simp only [List.cons_append, List.tail_cons]
      simp [List.countP_append, List.countP_cons, hturn]
  unfold add_turn_list
  by_cases hc : 100 ≤ (h ++ [HistEntry.turn q r d]).length
  · have hlen99 : h.length = 99 := by
      simp only [List.length_append, List.length_cons, List.length_nil] at hc
      omega
    have hlen100 : (h ++ [HistEntry.turn q r d]).length = 100 := by
      simp [hlen99]
    rw [if_pos hc]
    unfold summarize_history
    rw [if_neg (by omega)]
    have hdrop0 : ((h ++ [HistEntry.turn q r d]).drop 80).countP isSummary = 0 := by
      have := countP_drop80_le_tail (h ++ [HistEntry.turn q r d])
      omega
    refine ⟨?_, ?_, ?_, ?_⟩
    · simp [List.length_drop, hlen100]
    · simpa using hdrop0
    · intro hn
      exfalso
      have := hlt (by omega)
      omega
    · intro _
      constructor
      · simp [List.countP_cons, create_conversation_summary, isSummary, hdrop0]
      · simp [create_conversation_summary, isSummary]
  · rw [if_neg hc]
    have hlenlt : h.length + 1 ≤ 99 := by
      simp only [List.length_append, List.length_cons, List.length_nil] at hc
      omega
    refine ⟨by simp [hlenlt], htail1.trans htail, ?_, ?_⟩
    · intro hn
      obtain ⟨hz, hl⟩ := hlt (by omega)
      exact ⟨hcount1.trans hz, by simp [hl]⟩
    · intro hn
      have hge' : 100 ≤ n := by
        rcases Nat.lt_or_ge n 100 with hlt' | hge'
        · obtain ⟨-, hl⟩ := hlt hlt'
          omega
        · exact hge'
      obtain ⟨hcnt, hhead⟩ := hge hge'
      have hne : h ≠ [] := by
        intro hnil
        rw [hnil] at hcnt
        simp at hcnt
      refine ⟨hcount1.trans hcnt, ?_⟩
      rw [List.head?_append]
      cases h with
      | nil => exact absurd rfl hne
      | cons a as => simpa using hhead

theorem histInv_fold (ts : List (String × String × Option String)) :
    ∀ (h : List HistEntry) (n : Nat), histInv n h →
      histInv (n + ts.length)
        (ts.foldl (fun acc t => add_turn_list acc t.1 t.2.1 t.2.2) h) := by
  induction ts with
  | nil => intro h n inv; simpa using inv
  | cons t ts ih =>
    intro h n inv
    have := ih (add_turn_list h t.1 t.2.1 t.2.2) (n + 1) (histInv_step n h t.1 t.2.1 t.2.2 inv)
    simpa [List.foldl_cons, Nat.add_assoc, Nat.add_comm 1 ts.length] using this

theorem get_history_run (userId : String) (ts : List (String × String × Option String)) :
    get_history (run_add_turns userId ts) userId
      = ts.foldl (fun acc t => add_turn_list acc t.1 t.2.1 t.2.2) [] := by
  suffices hgen : ∀ (c : Conversations),
      get_history (ts.foldl (fun c t => add_turn c userId t.1 t.2.1 t.2.2) c) userId
        = ts.foldl (fun acc t => add_turn_list acc t.1 t.2.1 t.2.2) (get_history c userId) by
    simpa [get_history, emptyConversations, run_add_turns] using hgen emptyConversations
  induction ts with
  | nil => intro c; simp
  | cons t ts ih =>
    intro c
    rw [List.foldl_cons, List.foldl_cons, ih]
    congr 1
    simp [get_history, add_turn]

theorem chitchat_node_complete (f : AgentFn) (s : ChatState) :
    (chitchat_node f s).is_complete = true := by
  unfold chitchat_node
  cases f s <;> rfl

theorem summarizer_node_complete (f : AgentFn) (s : ChatState) :
    (summarizer_node f s).is_complete = true := by
  unfold summarizer_node
  cases f s <;> rfl

theorem unauthorized_node_complete (f : AgentFn) (s : ChatState) :
    (unauthorized_node f s).is_complete = true := by
  unfold unauthorized_node
  cases f s <;> rfl

theorem runAfterDb_complete (ag : Agents) (s2 : ChatState) :
    (runAfterDb ag s2).is_complete = true := by
  unfold runAfterDb
  split
  · exact summarizer_node_complete ag.summarizer (visualizer_node ag.visualizer s2)
  · exact summarizer_node_complete ag.summarizer s2

theorem pyOrStr_ne_empty (o : Option String) (d : String) (hd : d ≠ "") :
    pyOrStr o d ≠ "" := by
  unfold pyOrStr
  cases o with
  | none => exact hd
  | some s =>
    by_cases hs : s = ""
    · simp only [hs, if_pos rfl]
      exact hd
    · simp only [if_neg hs]
      exact hs

/-- C1: for every role string outside the closed enumeration (viewer,
readonly, analyst, admin — compared after the source's lower-casing),
`validate_query_access` denies every statement with the invalid-role
reason and `get_role_info` returns `none`; no unknown role is ever
default-allowed. -/
theorem claim_C1 (role sql : String)
    (h : strToLower role ∉ ["viewer", "readonly", "analyst", "admin"]) :
    validate_query_access role sql = (false, "Invalid role: " ++ role) ∧
    get_role_info role = none := by
  simp only [List.mem_cons, List.not_mem_nil, or_false, not_or] at h
  obtain ⟨h1, h2, h3, h4⟩ := h
  have hp : parseRole role = none := by
    simp [parseRole, h1, h2, h3, h4]
  exact ⟨by simp [validate_query_access, hp], by simp [get_role_info, hp]⟩

/-- Witness for C1 at the concrete unknown role `"superuser"`. -/
theorem claim_C1_witness :
    validate_query_access "superuser" "SELECT * FROM users" = (false, "Invalid role: superuser") ∧
    get_role_info "superuser" = none :=
  claim_C1 "superuser" "SELECT * FROM users" (by decide)

/-- C2: for every role that does not parse to the elevated `admin` role
and every statement whose (upper-cased, stripped) text contains a
denylisted keyword, `validate_query_access` denies, regardless of the
role's table permissions; and the admin role bypasses the denylist check
(`_is_safe_query` accepts every statement for admin). -/
theorem claim_C2 :
    (∀ role sql, parseRole role ≠ some Role.admin → hasDangerousKeyword sql = true →
      (validate_query_access role sql).1 = false) ∧
    (∀ sql, is_safe_query sql Role.admin = true) := by
  constructor
  · intro role sql hrole hkw
    unfold validate_query_access
    cases hpr : parseRole role with
    | none => rfl
    | some r =>
      have hr : r ≠ Role.admin := by
        rintro rfl
        exact hrole hpr
      cases hfind : (extract_tables_from_sql sql).find? (fun t => ! can_access_table role t) with
      | some t => rfl
      | none =>
        have hsafe : is_safe_query sql r = false := by
          simp [is_safe_query, hr, hkw, ite_self]
        simp [hsafe]
  · intro sql
    simp [is_safe_query]

/-- Witness for C2 at the concrete role `"viewer"` and the statement
`"DROP TABLE users"`. -/
theorem claim_C2_witness :
    (validate_query_access "viewer" "DROP TABLE users").1 = false :=
  claim_C2.1 "viewer" "DROP TABLE users" (by decide) (by decide)

/-- C3 (code bug evaluation): for the in-enumeration role `"viewer"` and
the statement `"SELECT 1"`, table extraction yields zero table names, yet
`validate_query_access` returns Allow — the code fails open where the
specification requires a fail-closed default. -/
theorem claim_C3_bug :
    extract_tables_from_sql "SELECT 1" = [] ∧
    validate_query_access "viewer" "SELECT 1" = (true, "Access granted") := by
  decide

/-- C4: `validate_query_access` never consults the per-role column
restrictions — for every role, two statements with the same extracted
table names, the same SELECT-shape and the same denylist status (in
particular, two SELECTs differing only in their selected column
identifiers, neither column list introducing a denylisted keyword
substring) receive the same decision and the same reason. -/
theorem claim_C4 (role s1 s2 : String)
    (ht : extract_tables_from_sql s1 = extract_tables_from_sql s2)
    (hsel : strStartsWith (sqlUpperOf s1) "SELECT" = strStartsWith (sqlUpperOf s2) "SELECT")
    (hkw : hasDangerousKeyword s1 = hasDangerousKeyword s2) :
    validate_query_access role s1 = validate_query_access role s2 := by
  unfold validate_query_access
  cases hpr : parseRole role with
  | none => rfl
  | some r =>
    dsimp only
    have hsafe : is_safe_query s1 r = is_safe_query s2 r := by
      unfold is_safe_query
      rw [hsel, hkw]
    rw [ht, hsafe]

/-- Witness for C4: the viewer decisions on `SELECT id FROM users` and
`SELECT name FROM users` coincide. -/
theorem claim_C4_witness :
    validate_query_access "viewer" "SELECT id FROM users"
      = validate_query_access "viewer" "SELECT name FROM users" :=
  claim_C4 "viewer" _ _ (by decide) (by decide) (by decide)

/-- C9: the elevated `admin` role is never denied by the validator: every
statement whatsoever — any tables, any write/DDL/introspection keywords —
is allowed with reason "Access granted". -/
theorem claim_C9 (sql : String) :
    validate_query_access "admin" sql = (true, "Access granted") := by
  have hpr : parseRole "admin" = some Role.admin := by decide
  have hcat : ∀ t, can_access_table "admin" t = true := by
    intro t
    simp [can_access_table, hpr]
  have hfind : (extract_tables_from_sql sql).find? (fun t => ! can_access_table "admin" t)
      = none := by
    rw [List.find?_eq_none]
    intro x _
    simp [hcat]
  unfold validate_query_access
  rw [hpr, hfind]
  simp [is_safe_query]

/-- C10: denylist matching is substring-based on the upper-cased text, so
for every role not parsing to admin, the plain SELECTs naming the columns
`created_at` (containing CREATE) and `updated_at` (containing UPDATE) on
the universally-permitted table `users` are both denied. -/
theorem claim_C10 (role : String) (h : parseRole role ≠ some Role.admin) :
    (validate_query_access role "SELECT created_at FROM users").1 = false ∧
    (validate_query_access role "SELECT updated_at FROM users").1 = false := by
  cases hpr : parseRole role with
  | none => exact ⟨by simp [validate_query_access, hpr], by simp [validate_query_access, hpr]⟩
  | some r =>
    have hr : r ≠ Role.admin := by
      rintro rfl
      exact h hpr
    have hcat : can_access_table role "users" = true := by
      unfold can_access_table
      rw [hpr]
      cases r <;> decide
    have key : ∀ sql : String, extract_tables_from_sql sql = ["users"] →
        is_safe_query sql r = false → (validate_query_access role sql).1 = false := by
      intro sql hex hsafe
      unfold validate_query_access
      rw [hpr]
      dsimp only
      rw [hex, List.find?_cons_of_neg _ (by simp [hcat]), List.find?_nil]
      simp [hsafe]
    refine ⟨key _ (by decide) ?_, key _ (by decide) ?_⟩ <;>
      cases r <;> first | exact absurd rfl hr | decide

/-- Witness for C10 at the concrete non-admin role `"viewer"`. -/
theorem claim_C10_witness :
    (validate_query_access "viewer" "SELECT created_at FROM users").1 = false ∧
    (validate_query_access "viewer" "SELECT updated_at FROM users").1 = false :=
  claim_C10 "viewer" (by decide)

/-- C5: for every user and every sequence of at least 100 `add_turn`
calls from the empty store, the stored history stays bounded (length at
most 100) and contains exactly one Summary Entry, which is the oldest
(first) element; moreover consolidation at exactly 100 entries replaces
the oldest 80 by one Summary Entry, leaving 21 entries. The invariant is
preserved across repeated consolidations. -/
theorem claim_C5 (userId : String) (ts : List (String × String × Option String))
    (hts : 100 ≤ ts.length) :
    ((get_history (run_add_turns userId ts) userId).length ≤ 100 ∧
     (get_history (run_add_turns userId ts) userId).countP isSummary = 1 ∧
     (get_history (run_add_turns userId ts) userId).head?.map isSummary = some true) ∧
    (∀ g : List HistEntry, g.length = 100 →
      summarize_history g = create_conversation_summary (g.take 80) :: g.drop 80 ∧
      (summarize_history g).length = 21) := by
  constructor
  · have hinv := histInv_fold ts [] 0 histInv_zero
    rw [← get_history_run userId ts] at hinv
    obtain ⟨hlen, -, -, hge⟩ := hinv
    obtain ⟨hcnt, hhead⟩ := hge (by omega)
    exact ⟨by omega, hcnt, hhead⟩
  · intro g hg
    constructor
    · unfold summarize_history
      rw [if_neg (by omega)]
    · unfold summarize_history
      rw [if_neg (by omega)]
      simp [List.length_drop, hg]

/-- Witness for C5: after 100 identical `add_turn` calls the stored list
holds exactly one Summary Entry. -/
theorem claim_C5_witness :
    (get_history (run_add_turns "u" (List.replicate 100 ("hello", "hi", none))) "u").countP
        isSummary = 1 :=
  (claim_C5 "u" (List.replicate 100 ("hello", "hi", none)) (by simp)).1.2.1

/-- C6 counterexample: with one stored turn for user `"u"`,
`get_recent_history` at `limit = 0` returns the full stored entry (Python
`history[-0:]` is the whole list), so its length is not bounded by the
limit and it is not the 0-truncated tail the claim requires. -/
theorem claim_C6_counterexample :
    get_recent_history exampleConversations "u" 0 = [HistEntry.turn "a" "b" none] ∧
    ¬ ((get_recent_history exampleConversations "u" 0).length ≤ 0) := by
  decide

/-- C6 as amended: for every positive limit, `get_recent_history` returns
exactly the tail of `get_history` truncated to `limit` entries, in order,
with length at most `limit`, and returns the empty sequence when the user
is unknown (at `limit = 0` the code instead returns the entire stored
history). -/
theorem claim_C6_amended (c : Conversations) (userId : String) (limit : Nat)
    (hpos : 1 ≤ limit) :
    get_recent_history c userId limit = specRecentTail (get_history c userId) limit ∧
    (get_recent_history c userId limit).length ≤ limit ∧
    (c userId = none → get_recent_history c userId limit = []) := by
  have hkey : ∀ h : List HistEntry, h.drop (h.length - limit) = specRecentTail h limit := by
    intro h
    unfold specRecentTail
    rw [List.take_reverse]
    simp [List.length_reverse]
  have hmain : get_recent_history c userId limit
      = specRecentTail (get_history c userId) limit := by
    unfold get_recent_history get_history pySliceLast
    cases hcu : c userId with
    | none => simp [specRecentTail]
    | some h =>
      cases h with
      | nil => simp [specRecentTail]
      | cons a as =>
        rw [Option.getD_some]
        rw [if_neg (by simp)]
        rw [if_neg (by omega)]
        exact hkey (a :: as)
  refine ⟨hmain, ?_, ?_⟩
  · rw [hmain]
    unfold specRecentTail
    simp only [List.length_reverse, List.length_take]
    omega
  · intro hnone
    unfold get_recent_history
    rw [hnone]
    simp

/-- Witness for the amended C6 at the concrete store and `limit = 2`. -/
theorem claim_C6_amended_witness :
    get_recent_history exampleConversations "u" 2
      = specRecentTail (get_history exampleConversations "u") 2 :=
  (claim_C6_amended exampleConversations "u" 2 (by decide)).1

/-- C7 counterexample: when the router stage raises, the engine routes to
the chitchat stage (`next_agent = "chitchat"`) without marking the turn
complete or setting any message, and the final response carries the
chitchat greeting — not a generic denial message as the claim states. -/
theorem claim_C7_counterexample :
    (router_node errorAgent exampleInitialState).next_agent = some "chitchat" ∧
    (router_node errorAgent exampleInitialState).is_complete = false ∧
    (run_workflow allErrorAgents exampleInitialState).toOption.map ChatState.response_message
      = some (some chitchatFallbackMessage) ∧
    chitchatFallbackMessage ≠ unauthorizedErrorMessage := by
  refine ⟨rfl, rfl, rfl, by decide⟩

/-- C7 as amended: failures are absorbed at each stage boundary — an
unauthorized-stage failure sets the generic denial message and marks the
turn complete; a router failure routes to the chitchat stage (not to a
denial); database-agent failures set `next_agent = "summarizer"` and a
fallback message (reaching the summarizer directly or through the
visualizer stage); a visualizer failure routes to the summarizer; every
graph run that completes ends with `is_complete = true`; and the caller
always receives a non-empty message string from `process_query`. -/
theorem claim_C7_amended :
    (∀ (f : AgentFn) (s : ChatState), f s = Except.error () →
      (unauthorized_node f s).is_complete = true ∧
      (unauthorized_node f s).response_message = some unauthorizedErrorMessage) ∧
    (∀ (f : AgentFn) (s : ChatState), f s = Except.error () →
      (router_node f s).next_agent = some "chitchat" ∧
      (router_node f s).is_complete = s.is_complete) ∧
    (∀ (f : AgentFn) (s : ChatState), f s = Except.error () →
      (db_agent_1_node f s).next_agent = some "summarizer" ∧
      (db_agent_1_node f s).response_message = some dbAgent1ErrorMessage) ∧
    (∀ (f : AgentFn) (s : ChatState), f s = Except.error () →
      (db_agent_2_node f s).next_agent = some "summarizer" ∧
      (db_agent_2_node f s).response_message = some dbAgent2ErrorMessage) ∧
    (∀ (f : AgentFn) (s : ChatState), f s = Except.error () →
      (visualizer_node f s).next_agent = some "summarizer" ∧
      (visualizer_node f s).response_message = some visualizerErrorMessage) ∧
    (∀ (ag : Agents) (s fs : ChatState),
      run_workflow ag s = Except.ok fs → fs.is_complete = true) ∧
    (∀ (ag : Agents) (userId role query : String) (ctx : Bool),
      (process_query ag userId role query ctx).message ≠ "") := by
  refine ⟨?_, ?_, ?_, ?_, ?_, ?_, ?_⟩
  · intro f s hf
    constructor <;> simp [unauthorized_node, hf]
  · intro f s hf
    constructor <;> simp [router_node, hf]
  · intro f s hf
    constructor <;> simp [db_agent_1_node, hf]
  · intro f s hf
    constructor <;> simp [db_agent_2_node, hf]
  · intro f s hf
    constructor <;> simp [visualizer_node, hf]
  · intro ag s fs h
    unfold run_workflow at h
    dsimp only at h
    split_ifs at h <;> injection h with h <;> subst h <;>
      first
        | exact chitchat_node_complete ..
        | exact runAfterDb_complete ..
        | exact unauthorized_node_complete ..
  · intro ag userId role query ctx
    unfold process_query
    cases hrw : run_workflow ag (initialState userId role query ctx) with
    | ok fs =>
      simpa using pyOrStr_ne_empty fs.response_message processFallbackMessage (by decide)
    | error e => simpa using (by decide : processErrorMessage ≠ "")

/-- Witness for the amended C7 with the always-raising collaborators on a
concrete initial state. -/
theorem claim_C7_amended_witness :
    (unauthorized_node errorAgent exampleInitialState).response_message
        = some unauthorizedErrorMessage ∧
    (router_node errorAgent exampleInitialState).next_agent = some "chitchat" ∧
    (db_agent_1_node errorAgent exampleInitialState).next_agent = some "summarizer" ∧
    (db_agent_2_node errorAgent exampleInitialState).response_message
        = some dbAgent2ErrorMessage ∧
    (visualizer_node errorAgent exampleInitialState).next_agent = some "summarizer" ∧
    (chitchat_node errorAgent (router_node errorAgent exampleInitialState)).is_complete
        = true ∧
    (process_query allErrorAgents "u" "viewer" "hello" false).message ≠ "" :=
  ⟨(claim_C7_amended.1 errorAgent exampleInitialState rfl).2,
   (claim_C7_amended.2.1 errorAgent exampleInitialState rfl).1,
   (claim_C7_amended.2.2.1 errorAgent exampleInitialState rfl).1,
   (claim_C7_amended.2.2.2.1 errorAgent exampleInitialState rfl).2,
   (claim_C7_amended.2.2.2.2.1 errorAgent exampleInitialState rfl).1,
   claim_C7_amended.2.2.2.2.2.1 allErrorAgents exampleInitialState
     (chitchat_node errorAgent (router_node errorAgent exampleInitialState)) rfl,
   claim_C7_amended.2.2.2.2.2.2 allErrorAgents "u" "viewer" "hello" false⟩

/-- C8: any normalised classifier label outside the known set maps to the
default chitchat stage with no context update; the `needs_visualization`
flag is attached exactly when the label is `"visualize"`, and that label
routes to the complex responder `db_agent_2`. -/
theorem claim_C8 (rawLabel : String) :
    (strToLower (strStrip rawLabel) ∉
        ["chitchat", "db1", "db2", "visualize", "unauthorized"] →
      classify_intent_route rawLabel = { goto := "chitchat", update := none }) ∧
    ((classify_intent_route rawLabel).update = some vizUpdate ↔
      strToLower (strStrip rawLabel) = "visualize") ∧
    (strToLower (strStrip rawLabel) = "visualize" →
      (classify_intent_route rawLabel).goto = "db_agent_2") := by
  refine ⟨?_, ?_, ?_⟩
  · intro h
    simp only [List.mem_cons, List.not_mem_nil, or_false, not_or] at h
    obtain ⟨h1, h2, h3, h4, h5⟩ := h
    have e1 : (strToLower (strStrip rawLabel) == "chitchat") = false := beq_eq_false_iff_ne.mpr h1
    have e2 : (strToLower (strStrip rawLabel) == "db1") = false := beq_eq_false_iff_ne.mpr h2
    have e3 : (strToLower (strStrip rawLabel) == "db2") = false := beq_eq_false_iff_ne.mpr h3
    have e4 : (strToLower (strStrip rawLabel) == "visualize") = false := beq_eq_false_iff_ne.mpr h4
    have e5 : (strToLower (strStrip rawLabel) == "unauthorized") = false :=
      beq_eq_false_iff_ne.mpr h5
    simp [classify_intent_route, routing_map, List.lookup, e1, e2, e3, e4, e5, h4]
  · by_cases hv : strToLower (strStrip rawLabel) = "visualize" <;>
      simp [classify_intent_route, hv]
  · intro hv
    simp [classify_intent_route, hv, routing_map, List.lookup]

/-- Witness for C8 at the unknown label `"banana"` and the visualization
label `" VISUALIZE "` (normalised by strip and lower-case). -/
theorem claim_C8_witness :
    classify_intent_route "banana" = { goto := "chitchat", update := none } ∧
    (classify_intent_route " VISUALIZE ").goto = "db_agent_2" :=
  ⟨(claim_C8 "banana").1 (by decide), (claim_C8 " VISUALIZE ").2.2 (by decide)⟩

end ChatbotSql
